import Mathlib

/-!
Verification of the `remote` package (App Engine remote-API session tool).

The development shallowly embeds the two Go source files:
* the session/authentication file (`readApp`, `NewSession`, `readCredentials`,
  `Signin`, `Signout`, the `CookieTray` on-disk format), and
* `options.go` (`Command.Is`).

External effects (file system, network, terminal) are passed explicitly as
environment records; Go's `error` values are `Option String` (`none` = nil),
and a Go runtime panic is the `crash` constructor of `GoResult`.
-/

namespace Remote

/-- A platform cookie record, restricted to the fields the specification's
round-trip law observes (name, value, domain); the remaining fields are
carried verbatim by the same mechanism. -/
structure Cookie where
  name : String
  value : String
  domain : String
deriving Repr, DecidableEq

/-- `type CookieTray struct { Cookies []*http.Cookie; Path string }`. -/
structure CookieTray where
  Cookies : List Cookie
  Path : String
deriving Repr, DecidableEq

/-- The fields of `App` (from app.yaml) that the session code reads. -/
structure App where
  Application : String
  Version : String
deriving Repr, DecidableEq

/-- Outcome of running a piece of Go code: either a normal return value or a
runtime panic (e.g. a nil-pointer dereference). -/
inductive GoResult (α : Type) where
  | crash (msg : String)
  | ret (v : α)
deriving Repr, DecidableEq

/-! ### The gob-encoded cookie file

Modelled from the spec: the `encoding/gob` library (not part of this
repository) serializes the `[]CookieTray` value written by `Signin` and read
back by `NewSession`; per the spec the format "must round-trip structurally
(origin string + ordered cookie list per tray)".  We model the byte stream as
a list of tokens. -/

/-- One token of the modelled gob stream. -/
inductive GobItem where
  | num (n : Nat)
  | str (s : String)
deriving Repr, DecidableEq

/-- Modelled from the spec: gob encoding of one cookie record. -/
def encodeCookie (c : Cookie) : List GobItem :=
  [GobItem.str c.name, GobItem.str c.value, GobItem.str c.domain]

/-- Modelled from the spec: gob encoding of an ordered cookie list. -/
def encodeCookies : List Cookie → List GobItem
  | [] => []
  | c :: cs => encodeCookie c ++ encodeCookies cs

/-- Modelled from the spec: gob encoding of one `CookieTray`
(origin string, then the length-prefixed cookie list). -/
def encodeTray (t : CookieTray) : List GobItem :=
  GobItem.str t.Path :: GobItem.num t.Cookies.length :: encodeCookies t.Cookies

/-- Modelled from the spec: gob encoding of a sequence of trays. -/
def encodeTrays : List CookieTray → List GobItem
  | [] => []
  | t :: ts => encodeTray t ++ encodeTrays ts

/-- Modelled from the spec: the full gob stream for a `[]CookieTray` value,
a length prefix followed by the trays. -/
def gobEncodeTrays (ts : List CookieTray) : List GobItem :=
  GobItem.num ts.length :: encodeTrays ts

/-- Decoder for one cookie; `none` models a gob decode error. -/
def decodeCookie : List GobItem → Option (Cookie × List GobItem)
  | GobItem.str n :: GobItem.str v :: GobItem.str d :: rest =>
      some ({ name := n, value := v, domain := d }, rest)
  | _ => none

/-- Decoder for `n` consecutive cookies. -/
def decodeCookies : Nat → List GobItem → Option (List Cookie × List GobItem)
  | 0, rest => some ([], rest)
  | n + 1, items =>
    match decodeCookie items with
    | none => none
    | some (c, rest) =>
      match decodeCookies n rest with
      | none => none
      | some (cs, rest2) => some (c :: cs, rest2)

/-- Decoder for one tray. -/
def decodeTray : List GobItem → Option (CookieTray × List GobItem)
  | GobItem.str p :: GobItem.num n :: rest =>
    match decodeCookies n rest with
    | none => none
    | some (cs, rest2) => some ({ Cookies := cs, Path := p }, rest2)
  | _ => none

/-- Decoder for `n` consecutive trays. -/
def decodeTrays : Nat → List GobItem → Option (List CookieTray × List GobItem)
  | 0, rest => some ([], rest)
  | n + 1, items =>
    match decodeTray items with
    | none => none
    | some (t, rest) =>
      match decodeTrays n rest with
      | none => none
      | some (ts, rest2) => some (t :: ts, rest2)

/-- Modelled from the spec: gob decoding of a `[]CookieTray` stream;
`none` models `gob.Decoder.Decode` returning a non-nil error. -/
def gobDecodeTrays (items : List GobItem) : Option (List CookieTray) :=
  match items with
  | GobItem.num n :: rest =>
    match decodeTrays n rest with
    | some (ts, []) => some ts
    | _ => none
  | _ => none

/-! ### File system -/

/-- The persisted state: content of `~/.cookies`, `none` when the file is
absent. -/
structure FS where
  cookieFile : Option (List GobItem)
deriving Repr, DecidableEq

/-- The cookie-store save operation as `Signin` performs it (lines 219-225):
`os.Create` truncates/creates the fixed file and the gob stream for the trays
is written to it. -/
def saveTrays (_fs : FS) (ts : List CookieTray) : FS :=
  { cookieFile := some (gobEncodeTrays ts) }

/-- The cookie-store load operation as `NewSession` performs it (lines
105-120): a missing file (`os.Open` error) or a failed gob decode both leave
the tray list empty and are not surfaced. -/
def loadTrays (fs : FS) : List CookieTray :=
  match fs.cookieFile with
  | none => []
  | some items =>
    match gobDecodeTrays items with
    | none => []
    | some ts => ts

/-- `os.Remove` on the cookie file: deleting a present file succeeds;
removing an absent file returns a non-nil `*PathError` (ENOENT). -/
def osRemove (fs : FS) : Option String × FS :=
  match fs.cookieFile with
  | none => (some "remove .cookies: no such file or directory", fs)
  | some _ => (none, { cookieFile := none })

/-! ### Strings -/

/-- Helper for `goSplit`: split the remaining characters at the separator,
`acc` holding the current field reversed. -/
def splitCharAux (sep : Char) : List Char → List Char → List (List Char)
  | [], acc => [acc.reverse]
  | c :: cs, acc =>
    if c = sep then acc.reverse :: splitCharAux sep cs []
    else splitCharAux sep cs (c :: acc)

/-- Go `strings.Split(s, sep)` for the single-character separators this code
uses (`"\n"`, `"="`, `" "`): `Split("", sep) = [""]`, empty fields are kept. -/
def goSplit (s : String) (sep : Char) : List String :=
  (splitCharAux sep s.data []).map String.mk

/-! ### URLs and cookie jars -/

/-- Model of Go `url.Parse` at the precision these claims need: the parse
fails exactly when the string contains a space (Go rejects spaces in URLs),
and a parsed URL is represented by its string; all endpoint strings the code
builds are space-free and parse. -/
def urlParse (s : String) : Except String String :=
  if ' ' ∈ s.data then Except.error ("parse " ++ s ++ ": invalid character in URL")
  else Except.ok s

/-- A cookie jar: cookies keyed by the URL they were set for.  `SetCookies`
prepends an entry; `Cookies` reads the most recent entry for the URL. -/
abbrev Jar := List (String × List Cookie)

/-- `jar.SetCookies(u, cookies)`. -/
def jarSetCookies (jar : Jar) (u : String) (cs : List Cookie) : Jar :=
  (u, cs) :: jar

/-- `jar.Cookies(u)`: the cookies most recently set for `u`, `[]` if none. -/
def jarCookies (jar : Jar) (u : String) : List Cookie :=
  match jar.find? (fun p => p.fst == u) with
  | some p => p.snd
  | none => []

/-! ### readApp -/

/-- Environment for `readApp`: the result of `ioutil.ReadFile(path+"/app.yaml")`
and of `yaml.Unmarshal` (the YAML library is external, so its behaviour on the
read bytes is part of the environment). -/
structure AppEnv where
  readFile : Except String String
  unmarshal : String → Except String App

/-- `readApp` (lines 42-52): returns `(nil, err)` when the file read or the
YAML unmarshal fails, `(app, nil)` otherwise. -/
def readApp (env : AppEnv) : Except String App :=
  match env.readFile with
  | Except.error e => Except.error e
  | Except.ok bytes =>
    match env.unmarshal bytes with
    | Except.error e => Except.error e
    | Except.ok app => Except.ok app

/-! ### Session and NewSession -/

/-- The `Session` struct (lines 58-69); URLs are represented by their strings
and the `http.Client`'s jar is carried directly. -/
structure Session where
  Local : Bool
  ServiceHost : String
  ServiceScheme : String
  ServiceURL : String
  AppHost : String
  AppScheme : String
  AppURL : String
  App : Option App
  jar : Jar
deriving Repr, DecidableEq

/-- Environment for `NewSession`: the app.yaml environment plus the persisted
file system. -/
structure SessionEnv where
  appEnv : AppEnv
  fs : FS

/-- The panic message of a Go nil-pointer dereference. -/
def nilDerefMsg : String :=
  "runtime error: invalid memory address or nil pointer dereference"

/-- Lines 113-119: install each loaded tray whose origin string parses into a
fresh jar; trays with unparseable origins are silently skipped. -/
def installTrays (trays : List CookieTray) : Jar :=
  trays.foldl
    (fun j t =>
      match urlParse t.Path with
      | Except.ok u => jarSetCookies j u t.Cookies
      | Except.error _ => j)
    []

/-- `NewSession` (lines 76-127).  Faithful to the source's error flow:
the `err` from `readApp` is captured but overwritten by the `url.Parse`
assignments (line 96) before it can be returned; `cookiejar.New(nil)` always
returns a nil error, so line 126 returns a nil error whenever it is reached;
in remote mode a nil `App` is dereferenced at line 93 (a panic). -/
def NewSession (env : SessionEnv) (isLocal : Bool) : GoResult (Option Session × Option String) :=
  let app : Option App := (readApp env.appEnv).toOption
  let hosts : GoResult (String × String × String × String) :=
    if isLocal then GoResult.ret ("localhost:8000", "http", "localhost:8080", "http")
    else
      match app with
      | none => GoResult.crash nilDerefMsg
      | some a => GoResult.ret ("appengine.google.com", "https", a.Application ++ ".appspot.com", "https")
  match hosts with
  | GoResult.crash m => GoResult.crash m
  | GoResult.ret (sh, ss, ah, asch) =>
    match urlParse (ss ++ "://" ++ sh) with
    | Except.error e => GoResult.ret (none, some e)
    | Except.ok su =>
      match urlParse (asch ++ "://" ++ ah) with
      | Except.error e => GoResult.ret (none, some e)
      | Except.ok au =>
        let jar := installTrays (loadTrays env.fs)
        GoResult.ret (some
          { Local := isLocal, ServiceHost := sh, ServiceScheme := ss, ServiceURL := su,
            AppHost := ah, AppScheme := asch, AppURL := au, App := app, jar := jar }, none)

/-! ### readCredentials -/

/-- Environment for `readCredentials`: outcomes of `terminal.MakeRaw(0)`,
`t.ReadLine()` and `t.ReadPassword(...)`. -/
structure TermEnv where
  makeRaw : Except String Unit
  readLine : Except String String
  readPassword : Except String String

/-- What `readCredentials` produces: the returned triple plus whether
`terminal.Restore` ran. -/
structure CredResult where
  username : String
  password : String
  err : Option String
  restored : Bool
deriving Repr, DecidableEq

/-- `readCredentials` (lines 142-153).  Faithful to the source: the final
statement is `return username, password, nil`, so the returned error is nil on
every path, including a failed `terminal.MakeRaw`; `terminal.Restore` runs
only inside the `err == nil` branch. -/
def readCredentials (env : TermEnv) : CredResult :=
  match env.makeRaw with
  | Except.error _ => { username := "", password := "", err := none, restored := false }
  | Except.ok _ =>
    match env.readLine with
    | Except.error _ => { username := "", password := "", err := none, restored := true }
    | Except.ok u =>
      match env.readPassword with
      | Except.error _ => { username := u, password := "", err := none, restored := true }
      | Except.ok p => { username := u, password := p, err := none, restored := true }

/-! ### Signin -/

/-- Outcome of one `client.Get` login request: the error `client.Get` returned
(the redirect-refusing policy makes the expected redirect itself an error; a
transport failure is also one) and the cookies the response stored in the
client's jar for that origin (empty when the request never got a response). -/
structure GetResult where
  err : Option String
  cookies : List Cookie
deriving Repr, DecidableEq

/-- Environment for `Signin`: terminal, the ClientLogin HTTP exchange, the two
stage-2 login GETs, and the cookie-file write. -/
structure SigninEnv where
  term : TermEnv
  clientLogin : Except String String
  readAllErr : Option String
  serviceGet : GetResult
  appGet : GetResult
  createErr : Option String
  encodeErr : Option String

/-- Lines 189-195: split the response body into lines, split each line at
`=`, and keep exactly the lines with two fields, later lines overwriting
earlier ones (entries are prepended, lookup finds the most recent). -/
def parseLines (lines : List String) : List (String × String) :=
  lines.foldl
    (fun m line =>
      match goSplit line '=' with
      | [k, v] => (k, v) :: m
      | _ => m)
    []

/-- `v, ok := m[k]` on the parsed response map. -/
def mapLookup (m : List (String × String)) (k : String) : Option String :=
  (m.find? (fun p => p.fst == k)).map Prod.snd

/-- The stage-1 ClientLogin exchange of `Signin` (lines 171-201): skipped in
local mode (the `values` map stays nil, i.e. empty); otherwise the transport
error, the body-read error, and a parsed `Error` key each abort `Signin` with
that error. -/
def clientLoginStage : Bool → SigninEnv → Except String (List (String × String))
  | true, _ => Except.ok []
  | false, env =>
    match env.clientLogin with
    | Except.error e => Except.error e
    | Except.ok body =>
      match env.readAllErr with
      | some e => Except.error e
      | none =>
        let values := parseLines (goSplit body '\n')
        match mapLookup values "Error" with
        | some msg => Except.error msg
        | none => Except.ok values

/-- `session.ServiceScheme + "://" + session.ServiceHost`. -/
def serviceOrigin (s : Session) : String :=
  s.ServiceScheme ++ "://" ++ s.ServiceHost

/-- `session.AppScheme + "://" + session.AppHost`. -/
def appOrigin (s : Session) : String :=
  s.AppScheme ++ "://" ++ s.AppHost

/-- `Signin` (lines 157-226).  Faithful to the source's error flow:
`readCredentials` never returns a non-nil error; a stage-1 failure returns
early without touching the file; `session.App.Application` (line 214)
dereferences a nil `App`; the `err` assigned by the two `client.Get` calls
(lines 213-215) is overwritten by `f, err := os.Create(...)` (line 222) and
never returned; the trays for the application endpoint and the service
endpoint are both appended unconditionally (lines 220-221); the value
returned is that of `enc.Encode` (line 225). -/
def Signin (session : Session) (env : SigninEnv) (fs : FS) : GoResult (Option String × FS) :=
  let _creds := readCredentials env.term
  match clientLoginStage session.Local env with
  | Except.error e => GoResult.ret (some e, fs)
  | Except.ok _values =>
    match session.App with
    | none => GoResult.crash nilDerefMsg
    | some app =>
      let jar : Jar := jarSetCookies [] (serviceOrigin session) env.serviceGet.cookies
      let jar : Jar :=
        if app.Application.length > 0 then
          jarSetCookies jar (appOrigin session) env.appGet.cookies
        else jar
      let cookieTrays : List CookieTray :=
        [ { Path := appOrigin session, Cookies := jarCookies jar session.AppURL },
          { Path := serviceOrigin session, Cookies := jarCookies jar session.ServiceURL } ]
      match env.createErr with
      | some _ => GoResult.ret (some "invalid argument", fs)
      | none =>
        match env.encodeErr with
        | some e => GoResult.ret (some e, { cookieFile := some [] })
        | none => GoResult.ret (none, saveTrays fs cookieTrays)

/-- `Signout` (lines 228-230): `return os.Remove(session.cookieFileName())`. -/
def Signout (_session : Session) (fs : FS) : Option String × FS :=
  osRemove fs

/-! ### options.go: Command.Is -/

/-- A Go `interface{}` value as stored in the docopt argument map: a boolean
or anything else (string, nil, ...). -/
inductive GoVal where
  | boolean (b : Bool)
  | other (s : String)
deriving Repr, DecidableEq

/-- `type Command struct { M map[string]interface{} }`. -/
structure Command where
  M : List (String × GoVal)

/-- `command.M[term]`: `none` models the nil interface a Go map yields for an
absent key. -/
def goMapIndex (m : List (String × GoVal)) (k : String) : Option GoVal :=
  (m.find? (fun p => p.fst == k)).map Prod.snd

/-- The type assertion `x.(bool)`: `none` models the panic raised when the
value is absent (nil interface) or not a boolean. -/
def typeAssertBool : Option GoVal → Option Bool
  | some (GoVal.boolean b) => some b
  | _ => none

/-- One iteration of the loop in `Command.Is`: once a term has panicked the
whole call has panicked (`none` is absorbing). -/
def isStep (m : List (String × GoVal)) (acc : Option Bool) (term : String) : Option Bool :=
  match acc, typeAssertBool (goMapIndex m term) with
  | some hasAll, some b => some (hasAll && b)
  | _, _ => none

/-- `Command.Is` (options.go lines 12-21): split `c` on single spaces and AND
the boolean assertions of all terms; `none` models the type-assertion panic. -/
def Command.Is (command : Command) (c : String) : Option Bool :=
  (goSplit c ' ').foldl (isStep command.M) (some true)

/-! ### Concrete inputs used by witnesses and counterexamples -/

/-- An empty file system: no `~/.cookies` file. -/
def fs0 : FS := { cookieFile := none }

/-- A sample cookie. -/
def cookieA : Cookie := { name := "ACSID", value := "abc", domain := "example.com" }

/-- A sample tray. -/
def trayA : CookieTray := { Cookies := [cookieA], Path := "https://example.com" }

/-- A file system whose cookie file holds one tray. -/
def fsOne : FS := { cookieFile := some (gobEncodeTrays [trayA]) }

/-- A terminal that always succeeds. -/
def termOk : TermEnv :=
  { makeRaw := Except.ok (), readLine := Except.ok "user", readPassword := Except.ok "pw" }

/-- A terminal whose `terminal.MakeRaw(0)` fails. -/
def termRawFail : TermEnv :=
  { makeRaw := Except.error "inappropriate ioctl for device",
    readLine := Except.ok "user", readPassword := Except.ok "pw" }

/-- A remote-mode session whose app.yaml had an empty `application:` field. -/
def sessionEmptyApp : Session :=
  { Local := false, ServiceHost := "appengine.google.com", ServiceScheme := "https",
    ServiceURL := "https://appengine.google.com", AppHost := ".appspot.com", AppScheme := "https",
    AppURL := "https://.appspot.com", App := some { Application := "", Version := "1" }, jar := [] }

/-- A local-mode session for the `myapp` application. -/
def sessionLocalMyapp : Session :=
  { Local := true, ServiceHost := "localhost:8000", ServiceScheme := "http",
    ServiceURL := "http://localhost:8000", AppHost := "localhost:8080", AppScheme := "http",
    AppURL := "http://localhost:8080", App := some { Application := "myapp", Version := "1" }, jar := [] }

/-- A remote-mode session for the `myapp` application. -/
def sessionRemoteMyapp : Session :=
  { Local := false, ServiceHost := "appengine.google.com", ServiceScheme := "https",
    ServiceURL := "https://appengine.google.com", AppHost := "myapp.appspot.com", AppScheme := "https",
    AppURL := "https://myapp.appspot.com", App := some { Application := "myapp", Version := "1" }, jar := [] }

/-- A sign-in run whose identity-provider response carries `Auth=tok`, whose
stage-2 GETs both fail at the network level with `connection refused`, and
whose cookie-file create and encode succeed. -/
def envConnRefused : SigninEnv :=
  { term := termOk, clientLogin := Except.ok "Auth=tok", readAllErr := none,
    serviceGet := { err := some "connection refused", cookies := [] },
    appGet := { err := some "connection refused", cookies := [] },
    createErr := none, encodeErr := none }

/-- A sign-in run whose identity-provider response is `Error=BadAuthentication`. -/
def envBadAuth : SigninEnv :=
  { term := termOk, clientLogin := Except.ok "Error=BadAuthentication", readAllErr := none,
    serviceGet := { err := some "redirect refused", cookies := [cookieA] },
    appGet := { err := some "redirect refused", cookies := [cookieA] },
    createErr := none, encodeErr := none }

/-- A sign-in run whose identity-provider response carries `Auth=tok` and
whose stage-2 GETs answer with the expected cookie-setting redirects. -/
def envAuthCookies : SigninEnv :=
  { term := termOk, clientLogin := Except.ok "Auth=tok", readAllErr := none,
    serviceGet := { err := some "redirect refused", cookies := [cookieA] },
    appGet := { err := some "redirect refused", cookies := [cookieA] },
    createErr := none, encodeErr := none }

/-- The app.yaml environment for an application named `myapp`. -/
def appEnvMyapp (ver : String) : AppEnv :=
  { readFile := Except.ok "application: myapp", unmarshal := fun _ => Except.ok { Application := "myapp", Version := ver } }

/-- A session-construction environment whose app.yaml is missing
(`ioutil.ReadFile` fails). -/
def envNoYaml : SessionEnv :=
  { appEnv := { readFile := Except.error "open app.yaml: no such file or directory",
                unmarshal := fun _ => Except.error "unreachable" },
    fs := fs0 }

/-- A command map assigning booleans to `a` (true) and `b` (true), and a
string to `c`. -/
def cmdSample : Command :=
  { M := [("a", GoVal.boolean true), ("b", GoVal.boolean true), ("c", GoVal.other "v")] }

/-- The normal-return error component of a `NewSession` result: `none` when
the call panicked, `some e` when it returned with Go error `e`. -/
def newSessionErr : GoResult (Option Session × Option String) → Option (Option String)
  | GoResult.crash _ => none
  | GoResult.ret p => some p.snd

/-- The normal-return error component of a `Signin` result: `none` when the
call panicked, `some e` when it returned with Go error `e`. -/
def signinErr : GoResult (Option String × FS) → Option (Option String)
  | GoResult.crash _ => none
  | GoResult.ret p => some p.fst

/-- The number of trays a `Signin` run persisted (counted by loading the file
back as `NewSession` does); `0` when the run panicked. -/
def signinTrayCount (r : GoResult (Option String × FS)) : Nat :=
  match r with
  | GoResult.ret (_, fs2) => (loadTrays fs2).length
  | GoResult.crash _ => 0

/-! ## Helper lemmas -/

theorem decodeCookie_encode (c : Cookie) (r : List GobItem) :
    decodeCookie (encodeCookie c ++ r) = some (c, r) := rfl

theorem decodeCookies_encode (cs : List Cookie) (r : List GobItem) :
    decodeCookies cs.length (encodeCookies cs ++ r) = some (cs, r) := by
  induction cs generalizing r with
  | nil => rfl
  | cons c cs ih =>
    show decodeCookies (cs.length + 1) ((encodeCookie c ++ encodeCookies cs) ++ r) = _
    rw [List.append_assoc]
    simp only [decodeCookies, decodeCookie_encode, ih]

theorem decodeTray_encode (t : CookieTray) (r : List GobItem) :
    decodeTray (encodeTray t ++ r) = some (t, r) := by
  show decodeTray (GobItem.str t.Path :: GobItem.num t.Cookies.length :: (encodeCookies t.Cookies ++ r)) = _
  simp only [decodeTray, decodeCookies_encode]

theorem decodeTrays_encode (ts : List CookieTray) (r : List GobItem) :
    decodeTrays ts.length (encodeTrays ts ++ r) = some (ts, r) := by
  induction ts generalizing r with
  | nil => rfl
  | cons t ts ih =>
    show decodeTrays (ts.length + 1) ((encodeTray t ++ encodeTrays ts) ++ r) = _
    rw [List.append_assoc]
    simp only [decodeTrays, decodeTray_encode, ih]

theorem gobDecode_encode (ts : List CookieTray) :
    gobDecodeTrays (gobEncodeTrays ts) = some ts := by
  show gobDecodeTrays (GobItem.num ts.length :: encodeTrays ts) = _
  have h := decodeTrays_encode ts []
  rw [List.append_nil] at h
  simp only [gobDecodeTrays, h]

theorem loadTrays_saveTrays (fs : FS) (ts : List CookieTray) :
    loadTrays (saveTrays fs ts) = ts := by
  simp only [loadTrays, saveTrays, gobDecode_encode]

theorem foldl_isStep_none (m : List (String × GoVal)) (ts : List String) :
    ts.foldl (isStep m) none = none := by
  induction ts with
  | nil => rfl
  | cons t ts ih => simpa [isStep] using ih

theorem foldl_isStep_all (m : List (String × GoVal)) (ts : List String)
    (h : ∀ t ∈ ts, ∃ b, goMapIndex m t = some (GoVal.boolean b)) (a : Bool) :
    ts.foldl (isStep m) (some a)
      = some (a && ts.all (fun t => decide (goMapIndex m t = some (GoVal.boolean true)))) := by
  induction ts generalizing a with
  | nil => simp
  | cons t ts ih =>
    obtain ⟨b, hb⟩ := h t (List.mem_cons_self t ts)
    have hrest : ∀ u ∈ ts, ∃ b, goMapIndex m u = some (GoVal.boolean b) :=
      fun u hu => h u (List.mem_cons_of_mem t hu)
    have hstep : isStep m (some a) t = some (a && b) := by
      simp [isStep, hb, typeAssertBool]
    have hbdec : decide (goMapIndex m t = some (GoVal.boolean true)) = b := by
      rw [hb]; cases b <;> simp
    calc (t :: ts).foldl (isStep m) (some a)
        = ts.foldl (isStep m) (isStep m (some a) t) := rfl
      _ = ts.foldl (isStep m) (some (a && b)) := by rw [hstep]
      _ = some ((a && b) && ts.all (fun u => decide (goMapIndex m u = some (GoVal.boolean true)))) := ih hrest (a && b)
      _ = some (a && (t :: ts).all (fun u => decide (goMapIndex m u = some (GoVal.boolean true)))) := by
          rw [List.all_cons, hbdec, Bool.and_assoc]

theorem foldl_isStep_bad (m : List (String × GoVal)) (ts : List String)
    (h : ∃ t ∈ ts, typeAssertBool (goMapIndex m t) = none) (a : Bool) :
    ts.foldl (isStep m) (some a) = none := by
  induction ts generalizing a with
  | nil => simp at h
  | cons t ts ih =>
    rcases h with ⟨u, hu, hbad⟩
    rcases List.mem_cons.mp hu with rfl | humem
    · show ts.foldl (isStep m) (isStep m (some a) u) = none
      have : isStep m (some a) u = none := by simp [isStep, hbad]
      rw [this, foldl_isStep_none]
    · show ts.foldl (isStep m) (isStep m (some a) t) = none
      cases hta : typeAssertBool (goMapIndex m t) with
      | none =>
        have : isStep m (some a) t = none := by simp [isStep, hta]
        rw [this, foldl_isStep_none]
      | some b =>
        have : isStep m (some a) t = some (a && b) := by simp [isStep, hta]
        rw [this]
        exact ih ⟨u, humem, hbad⟩ (a && b)

/-! ## Claims -/

/-- C1 (amended): for every sign-in run whose identity-provider response body
parses with an `Auth` token and no `Error` line, `Signin` reaches the
persisted state, and the cookie file it writes contains exactly two trays
(application endpoint and service endpoint) regardless of whether the
application identifier is empty — the code appends both trays
unconditionally, so the empty-identifier case also yields two trays, not
one. -/
theorem signin_auth_success_two_trays (s : Session) (env : SigninEnv) (fs : FS)
    (app : App) (body tok : String)
    (hApp : s.App = some app)
    (hlocal : s.Local = false)
    (hbody : env.clientLogin = Except.ok body)
    (hread : env.readAllErr = none)
    (hAuth : mapLookup (parseLines (goSplit body '\n')) "Auth" = some tok)
    (hNoErr : mapLookup (parseLines (goSplit body '\n')) "Error" = none)
    (hcreate : env.createErr = none)
    (hencode : env.encodeErr = none) :
    ∃ fs2, Signin s env fs = GoResult.ret (none, fs2) ∧ (loadTrays fs2).length = 2 := by
  simp only [Signin, clientLoginStage, hlocal, hbody, hread, hNoErr, hApp, hcreate, hencode]
  exact ⟨_, rfl, by rw [loadTrays_saveTrays]; rfl⟩

/-- Witness for C1's amended theorem: a concrete successful remote sign-in
for `myapp` persists exactly two trays. -/
theorem signin_auth_success_two_trays_witness :
    ∃ fs2, Signin sessionRemoteMyapp envAuthCookies fs0 = GoResult.ret (none, fs2) ∧
      (loadTrays fs2).length = 2 :=
  signin_auth_success_two_trays sessionRemoteMyapp envAuthCookies fs0
    { Application := "myapp", Version := "1" } "Auth=tok" "tok"
    rfl rfl rfl rfl (by decide) (by decide) rfl rfl

/-- Counterexample to C1 as stated: with an empty application identifier and
a successful `Auth=tok` exchange, the cookie file written by `Signin` holds
two trays, not the one tray the claim predicts. -/
theorem signin_emptyAppId_two_trays :
    signinTrayCount (Signin sessionEmptyApp envAuthCookies fs0) = 2 ∧
    signinTrayCount (Signin sessionEmptyApp envAuthCookies fs0) ≠ 1 :=
  ⟨by decide, by decide⟩

/-- C2: when the parsed identity-provider response map contains
`Error=BadAuthentication` (non-local mode), `Signin` returns exactly the
error `BadAuthentication` and leaves the persisted cookie state untouched. -/
theorem signin_badAuthentication_fails (s : Session) (env : SigninEnv) (fs : FS) (body : String)
    (hlocal : s.Local = false)
    (hbody : env.clientLogin = Except.ok body)
    (hread : env.readAllErr = none)
    (herr : mapLookup (parseLines (goSplit body '\n')) "Error" = some "BadAuthentication") :
    Signin s env fs = GoResult.ret (some "BadAuthentication", fs) := by
  simp only [Signin, clientLoginStage, hlocal, hbody, hread, herr]

/-- Witness for C2: a concrete `Error=BadAuthentication` response makes
`Signin` fail with that message, the file untouched. -/
theorem signin_badAuthentication_fails_witness :
    Signin sessionRemoteMyapp envBadAuth fsOne = GoResult.ret (some "BadAuthentication", fsOne) :=
  signin_badAuthentication_fails sessionRemoteMyapp envBadAuth fsOne "Error=BadAuthentication"
    rfl rfl rfl (by decide)

/-- C3: saving a non-empty tray sequence to the cookie file (gob-encoding,
as `Signin` does) and loading it back (gob-decoding, as `NewSession` does)
returns exactly the input trays: same origin strings and, per tray, the same
cookies in the same order. -/
theorem save_load_roundtrip (fs : FS) (ts : List CookieTray) (_h : ts ≠ []) :
    loadTrays (saveTrays fs ts) = ts :=
  loadTrays_saveTrays fs ts

/-- Witness for C3: a concrete one-tray sequence round-trips. -/
theorem save_load_roundtrip_witness :
    ([trayA] : List CookieTray) ≠ [] ∧ loadTrays (saveTrays fs0 [trayA]) = [trayA] :=
  ⟨by decide, save_load_roundtrip fs0 [trayA] (by decide)⟩

/-- C4: for a session whose application identifier is `myapp`, local mode
yields service endpoint `http://localhost:8000` and application endpoint
`http://localhost:8080`, and remote mode yields `https://appengine.google.com`
and `https://myapp.appspot.com`, for every cookie-file state and version. -/
theorem newSession_endpoints (fs : FS) (ver : String) :
    (∃ s, NewSession { appEnv := appEnvMyapp ver, fs := fs } true = GoResult.ret (some s, none) ∧
        s.ServiceURL = "http://localhost:8000" ∧ s.AppURL = "http://localhost:8080") ∧
    (∃ s, NewSession { appEnv := appEnvMyapp ver, fs := fs } false = GoResult.ret (some s, none) ∧
        s.ServiceURL = "https://appengine.google.com" ∧ s.AppURL = "https://myapp.appspot.com") :=
  ⟨⟨_, rfl, rfl, rfl⟩, ⟨_, rfl, rfl, rfl⟩⟩

/-- Witness for C4 at a concrete cookie-file state and version. -/
theorem newSession_endpoints_witness :
    (∃ s, NewSession { appEnv := appEnvMyapp "1", fs := fs0 } true = GoResult.ret (some s, none) ∧
        s.ServiceURL = "http://localhost:8000" ∧ s.AppURL = "http://localhost:8080") ∧
    (∃ s, NewSession { appEnv := appEnvMyapp "1", fs := fs0 } false = GoResult.ret (some s, none) ∧
        s.ServiceURL = "https://appengine.google.com" ∧ s.AppURL = "https://myapp.appspot.com") :=
  newSession_endpoints fs0 "1"

/-- C5: when the cookie file is missing or its contents fail to gob-decode,
`NewSession` still returns a session with a nil error from the cookie read:
the jar is empty and both endpoint URLs are resolved — the bad file degrades
to an unauthenticated but fully usable session. -/
theorem newSession_cookie_degradation (env : SessionEnv) (app : App) (isLocal : Bool)
    (happ : readApp env.appEnv = Except.ok app)
    (hurl : urlParse ("https" ++ "://" ++ (app.Application ++ ".appspot.com"))
              = Except.ok ("https" ++ "://" ++ (app.Application ++ ".appspot.com")))
    (hbad : env.fs.cookieFile = none ∨
            ∃ d, env.fs.cookieFile = some d ∧ gobDecodeTrays d = none) :
    ∃ s, NewSession env isLocal = GoResult.ret (some s, none) ∧ s.jar = [] ∧
      s.ServiceURL = s.ServiceScheme ++ "://" ++ s.ServiceHost ∧
      s.AppURL = s.AppScheme ++ "://" ++ s.AppHost := by
  have hload : loadTrays env.fs = [] := by
    rcases hbad with h | ⟨d, hd, hdec⟩
    · simp [loadTrays, h]
    · simp [loadTrays, hd, hdec]
  cases isLocal with
  | true =>
    simp only [NewSession, happ, Except.toOption, hload, if_true]
    exact ⟨_, rfl, rfl, rfl, rfl⟩
  | false =>
    simp only [NewSession, happ, Except.toOption, hload, Bool.false_eq_true, if_false, hurl]
    exact ⟨_, rfl, rfl, rfl, rfl⟩

/-- Witness for C5: a missing cookie file with a readable `myapp` descriptor
yields a usable remote session with an empty jar. -/
theorem newSession_cookie_degradation_witness :
    ∃ s, NewSession { appEnv := appEnvMyapp "1", fs := fs0 } false = GoResult.ret (some s, none) ∧
      s.jar = [] ∧
      s.ServiceURL = s.ServiceScheme ++ "://" ++ s.ServiceHost ∧
      s.AppURL = s.AppScheme ++ "://" ++ s.AppHost :=
  newSession_cookie_degradation { appEnv := appEnvMyapp "1", fs := fs0 }
    { Application := "myapp", Version := "1" } false rfl rfl (Or.inl rfl)

/-- C6 (amended): network-level failures of the stage-2 login GETs are NOT
propagated by `Signin`: the `err` assigned by the two `client.Get` calls is
overwritten by the subsequent `os.Create`, so when the cookie-file create and
encode succeed, `Signin` returns a nil error even though both GETs failed. -/
theorem signin_stage2_errors_not_propagated (s : Session) (env : SigninEnv) (fs : FS)
    (app : App) (vals : List (String × String)) (es ea : String)
    (hApp : s.App = some app)
    (hstage1 : clientLoginStage s.Local env = Except.ok vals)
    (hs : env.serviceGet.err = some es)
    (ha : env.appGet.err = some ea)
    (hcreate : env.createErr = none)
    (hencode : env.encodeErr = none) :
    ∃ fs2, Signin s env fs = GoResult.ret (none, fs2) := by
  simp only [Signin, hstage1, hApp, hcreate, hencode]
  exact ⟨_, rfl⟩

/-- Witness for C6's amended theorem: a local sign-in whose two GETs both
fail with `connection refused` still returns a nil error. -/
theorem signin_stage2_errors_not_propagated_witness :
    ∃ fs2, Signin sessionLocalMyapp envConnRefused fs0 = GoResult.ret (none, fs2) :=
  signin_stage2_errors_not_propagated sessionLocalMyapp envConnRefused fs0
    { Application := "myapp", Version := "1" } [] "connection refused" "connection refused"
    rfl rfl rfl rfl rfl rfl

/-- Counterexample to C6 as stated: in a run where both stage-2 GETs fail
with `connection refused`, `Signin` returns normally with a nil error — the
transport error is not propagated. -/
theorem signin_transport_error_dropped :
    signinErr (Signin sessionLocalMyapp envConnRefused fs0) = some none ∧
    envConnRefused.serviceGet.err = some "connection refused" ∧
    envConnRefused.appGet.err = some "connection refused" :=
  ⟨rfl, rfl, rfl⟩

/-- C7 (amended): `Signout` deletes the cookie file and returns a nil error
when the file exists; when the file is already absent it returns the non-nil
error of `os.Remove` (ENOENT); in both cases the file does not exist
afterwards. -/
theorem signout_removes_file (s : Session) (fs : FS) :
    (fs.cookieFile ≠ none → (Signout s fs).fst = none) ∧
    (fs.cookieFile = none → (Signout s fs).fst ≠ none) ∧
    (Signout s fs).snd.cookieFile = none := by
  obtain ⟨cf⟩ := fs
  cases cf with
  | none =>
    refine ⟨fun hne => absurd rfl hne, fun _ => ?_, rfl⟩
    simp [Signout, osRemove]
  | some d => exact ⟨fun _ => rfl, fun h => Option.noConfusion h, rfl⟩

/-- Witness for C7's amended theorem at a present and at an absent file. -/
theorem signout_removes_file_witness :
    (Signout sessionLocalMyapp fsOne).fst = none ∧
    (Signout sessionLocalMyapp fsOne).snd.cookieFile = none ∧
    (Signout sessionLocalMyapp fs0).fst ≠ none :=
  ⟨(signout_removes_file sessionLocalMyapp fsOne).1 (by decide),
    (signout_removes_file sessionLocalMyapp fsOne).2.2,
    (signout_removes_file sessionLocalMyapp fs0).2.1 rfl⟩

/-- Counterexample to C7 as stated: on an already-absent cookie file,
`Signout` returns a non-nil error (the file still does not exist
afterwards). -/
theorem signout_absent_file_errors :
    (Signout sessionLocalMyapp fs0).fst ≠ none ∧
    (Signout sessionLocalMyapp fs0).snd.cookieFile = none :=
  ⟨by decide, rfl⟩

/-- C8 (code bug): with a missing/unreadable `app.yaml`, `NewSession` never
returns the descriptor error — in remote mode it panics dereferencing the
nil `App` (line 93), and in local mode it returns a session with a nil
error; the `err` from `readApp` is overwritten at line 96 before any
return. -/
theorem newSession_missing_descriptor :
    NewSession envNoYaml false = GoResult.crash nilDerefMsg ∧
    newSessionErr (NewSession envNoYaml true) = some none :=
  ⟨rfl, rfl⟩

/-- C9 (code bug): `readCredentials` ends with
`return username, password, nil`, so a failed `terminal.MakeRaw(0)` is NOT
surfaced — the returned error is nil on that path (and on every other
path). -/
theorem readCredentials_never_errors :
    readCredentials termRawFail
      = { username := "", password := "", err := none, restored := false } ∧
    ∀ env : TermEnv, (readCredentials env).err = none := by
  refine ⟨rfl, fun env => ?_⟩
  unfold readCredentials
  cases env.makeRaw with
  | error e => rfl
  | ok u =>
    cases env.readLine with
    | error e => rfl
    | ok l =>
      cases env.readPassword with
      | error e => rfl
      | ok p => rfl

/-- C10: when the command map assigns a boolean to every space-separated term
of `c`, `Command.Is c` returns `true` exactly when every term maps to `true`;
when some term is absent or mapped to a non-boolean, the call does not return
a boolean at all (the type assertion panics, modelled as `none`). -/
theorem commandIs_boolean_and (cmd : Command) (c : String) :
    ((∀ t ∈ goSplit c ' ', ∃ b, goMapIndex cmd.M t = some (GoVal.boolean b)) →
      (cmd.Is c = some true ↔ ∀ t ∈ goSplit c ' ', goMapIndex cmd.M t = some (GoVal.boolean true))) ∧
    ((∃ t ∈ goSplit c ' ', ∀ b : Bool, goMapIndex cmd.M t ≠ some (GoVal.boolean b)) →
      cmd.Is c = none) := by
  constructor
  · intro h
    rw [Command.Is, foldl_isStep_all cmd.M _ h true]
    simp [List.all_eq_true]
  · rintro ⟨t, ht, hbad⟩
    have hnone : typeAssertBool (goMapIndex cmd.M t) = none := by
      cases hidx : goMapIndex cmd.M t with
      | none => rfl
      | some v =>
        cases v with
        | boolean b => exact absurd hidx (hbad b)
        | other sv => rfl
    rw [Command.Is]
    exact foldl_isStep_bad cmd.M _ ⟨t, ht, hnone⟩ true

/-- Witness for C10: on a map with `a ↦ true`, `b ↦ true`, `c ↦ "v"`, the
query `a b` returns `true` and the query `a c` panics. -/
theorem commandIs_boolean_and_witness :
    cmdSample.Is "a b" = some true ∧ cmdSample.Is "a c" = none := by
  constructor
  · exact ((commandIs_boolean_and cmdSample "a b").1 (by decide)).mpr (by decide)
  · exact (commandIs_boolean_and cmdSample "a c").2 ⟨"c", by decide, by decide⟩

end Remote
